import Mathlib

/-!
# Arduino Mouse Proxy — protocol layer, shallow embedding

A shallow embedding of the Python package `arduino_mouse` (files
`protocol.py`, `curves.py`, `client.py`): the packet codec
(`encode_move_command`, `decode_response`), the curve enumeration, and the
`ArduinoMouse` client's `move`/`close` behaviour, with the serial transport
abstracted as a read stream (one `Option Nat` per attempt: `none` models a
read that times out, `some b` a one-byte response `b`).

Machine integers are modelled as `Int`/`Nat` with explicit `% 2 ^ w`
reductions where Python's `struct.pack` would truncate; fallible Python code
(raising `ValueError` / `ProtocolError` / `TimeoutError` / `ConnectionError`)
is modelled with `Except`.
-/

namespace ArduinoMouseProxy

/-! ## Protocol constants (`protocol.py`) -/

def START_BYTE : Nat := 0xAA
def CMD_MOVE : Nat := 0x01
def PACKET_SIZE : Nat := 10

def ACK_OK : Nat := 0x00
def NAK_CHECKSUM : Nat := 0x01
def NAK_INVALID : Nat := 0x02
def NAK_INTERRUPTED : Nat := 0x03

/-! ## Packet codec (`protocol.py`) -/

/-- The four distinct `ValueError` reasons `encode_move_command` can raise,
one per validated range, each carrying the offending value as the Pythonic
message does. -/
inductive EncodeError where
  | dxRange (dx : Int)
  | dyRange (dy : Int)
  | durationRange (duration_ms : Int)
  | curveRange (curve : Int)
deriving DecidableEq, Repr

/-- Two's-complement wire image of a 16-bit field, as `struct.pack` produces
for format `h`: the value reduced into `[0, 2^16)`. -/
def toWire16 (v : Int) : Nat := (v % 65536).toNat

/-- Little-endian byte pair of a 16-bit value, low byte first. -/
def le16 (w : Nat) : List Nat := [w % 256, w / 256 % 256]

/-- The checksum loop of `encode_move_command`: byte-wise XOR fold,
starting from 0. -/
def xorFold (l : List Nat) : Nat := l.foldl Nat.xor 0

/-- The `struct.pack` line of `encode_move_command`: the nine payload bytes
(start, command, dx LE, dy LE, duration LE, curve) before the checksum. -/
def packetBytes (dx dy duration_ms curve : Int) : List Nat :=
  [START_BYTE, CMD_MOVE] ++ le16 (toWire16 dx) ++ le16 (toWire16 dy)
    ++ le16 duration_ms.toNat ++ [curve.toNat]

/-- `encode_move_command` from `protocol.py`: validate the four ranges in
order (dx, dy, duration_ms, curve), then pack with `struct.pack` under the
little-endian format BBhhHB the values 0xAA, 0x01, dx, dy, duration_ms,
curve — start byte,
command byte, dx and dy as signed little-endian 16-bit, duration as unsigned
little-endian 16-bit, curve byte — and append the XOR fold of those nine
bytes as the tenth byte. -/
def encode_move_command (dx dy duration_ms curve : Int) :
    Except EncodeError (List Nat) :=
  if ¬(-32768 ≤ dx ∧ dx ≤ 32767) then .error (.dxRange dx)
  else if ¬(-32768 ≤ dy ∧ dy ≤ 32767) then .error (.dyRange dy)
  else if ¬(1 ≤ duration_ms ∧ duration_ms ≤ 65535) then
    .error (.durationRange duration_ms)
  else if ¬(0 ≤ curve ∧ curve ≤ 3) then .error (.curveRange curve)
  else
    let packet := packetBytes dx dy duration_ms curve
    let checksum := xorFold packet
    .ok (packet ++ [checksum])

/-- The `ProtocolError` raised by `decode_response` on a response that is not
exactly one byte, carrying the observed length as the message does. -/
inductive DecodeError where
  | wrongLength (n : Nat)
deriving DecidableEq, Repr

/-- `decode_response` from `protocol.py`: require exactly one byte, then
return `(success, code)` with `success` true iff the byte is `ACK_OK`. -/
def decode_response (response : List Nat) : Except DecodeError (Bool × Nat) :=
  if response.length = 1 then
    let code := response.headD 0
    .ok (code == ACK_OK, code)
  else .error (.wrongLength response.length)

/-! ## Curve enumeration (`curves.py`) -/

/-- The `Curve` `IntEnum`: four easing modes with wire codes 0–3. -/
inductive Curve where
  | LINEAR
  | EASE_IN
  | EASE_OUT
  | EASE_IN_OUT
deriving DecidableEq, Repr

/-- `int(curve)`: the wire code of an enum member. -/
def Curve.toInt : Curve → Int
  | .LINEAR => 0
  | .EASE_IN => 1
  | .EASE_OUT => 2
  | .EASE_IN_OUT => 3

/-- The `Curve(value)` enum lookup: succeeds exactly on the codes 0–3,
raises `ValueError` (here `none`) on everything else. -/
def Curve.ofInt? : Int → Option Curve
  | 0 => some .LINEAR
  | 1 => some .EASE_IN
  | 2 => some .EASE_OUT
  | 3 => some .EASE_IN_OUT
  | _ => none

/-! ## Client session (`client.py`) -/

/-- The pyserial handle held by the client, reduced to the one observable
`move`/`close` consult: whether the port is open. -/
structure SerialHandle where
  is_open : Bool
deriving DecidableEq, Repr

/-- The mutable state of an `ArduinoMouse` instance: the `_serial` attribute,
`None` or a handle. -/
structure ArduinoMouseState where
  serial : Option SerialHandle
deriving DecidableEq, Repr

/-- `_ensure_connected`'s test: `_serial` is not `None` and is open. -/
def ArduinoMouseState.isConnected (s : ArduinoMouseState) : Bool :=
  match s.serial with
  | some h => h.is_open
  | none => false

/-- `ArduinoMouse.close`: if `_serial` is not `None` and open, close the
handle and set `_serial = None`; otherwise do nothing. -/
def ArduinoMouseState.close (s : ArduinoMouseState) : ArduinoMouseState :=
  match s.serial with
  | some h => if h.is_open then { serial := none } else s
  | none => s

/-- `__exit__`: context-manager exit just calls `close`. -/
def ArduinoMouseState.ctxExit (s : ArduinoMouseState) : ArduinoMouseState :=
  s.close

/-- `__del__`: destructor teardown just calls `close`. -/
def ArduinoMouseState.destructor (s : ArduinoMouseState) : ArduinoMouseState :=
  s.close

/-- `ArduinoMouse.MAX_RETRIES`. -/
def MAX_RETRIES : Nat := 1

/-- `ArduinoMouse.DEFAULT_TIMEOUT_BUFFER_MS`. -/
def DEFAULT_TIMEOUT_BUFFER_MS : Int := 1000

/-- The exceptions `move` can raise. -/
inductive MoveError where
  | connectionError
  | valueErrorCurve (curve : Int)
  | valueErrorEncode (e : EncodeError)
  | timeoutError (timeout_ms : Int)
  | protocolError (code : Nat)
deriving DecidableEq, Repr

/-- The curve argument at the `move()` boundary: either a `Curve` member or a
plain integer (`isinstance(curve, Curve)` distinguishes the two). -/
inductive CurveArg where
  | member (c : Curve)
  | raw (v : Int)
deriving DecidableEq, Repr

/-- The curve-validation step of `move`: a `Curve` member passes through,
a raw value goes through `Curve(value)` and a failed lookup becomes a
`ValueError` carrying the value. -/
def resolveCurve : CurveArg → Except Int Curve
  | .member c => .ok c
  | .raw v =>
    match Curve.ofInt? v with
    | some c => .ok c
    | none => .error v

/-- Outcome of the send/receive retry loop, before it is turned into
`move`'s return or exception. -/
inductive LoopOutcome where
  | ok
  | timeout
  | nak (code : Nat)
deriving DecidableEq, Repr

/-- The retry loop of `move` (`for attempt in range(MAX_RETRIES + 1)`),
with the transport abstracted as `reads : Nat → Option Nat` (the one-byte
read of attempt `n`; `none` is a read that returns no byte within the
deadline).  `remaining` counts the attempts still allowed after this one, so
a call starts at `attempt = 0`, `remaining = max_retries`, and
`attempt < MAX_RETRIES` in the source is `remaining ≠ 0` here.  Each
iteration clears the input buffer, writes the ten-byte frame (recorded in
the returned write trace), and reads one byte: an empty read raises
`TimeoutError` at once, `ACK_OK` returns success, `NAK_CHECKSUM` with
attempts remaining loops, and anything else raises `ProtocolError`. -/
def moveLoop (command : List Nat) (reads : Nat → Option Nat) :
    Nat → Nat → List (List Nat) × LoopOutcome
  | attempt, remaining =>
    match reads attempt with
    | none => ([command], .timeout)
    | some code =>
      if code = ACK_OK then ([command], .ok)
      else if code = NAK_CHECKSUM then
        match remaining with
        | 0 => ([command], .nak code)
        | r + 1 =>
          let rest := moveLoop command reads (attempt + 1) r
          (command :: rest.1, rest.2)
      else ([command], .nak code)

/-- What one `move` call produces: the post-call session state, the list of
frames written to the transport (in order), and the return/raise outcome. -/
structure MoveResult where
  post : ArduinoMouseState
  writes : List (List Nat)
  outcome : Except MoveError Unit
deriving Repr

/-- The send/receive half of `move`, after validation: run the retry loop
starting at attempt 0 with `max_retries` retries allowed, and turn its
outcome into `move`'s return or exception (`timeout_ms` is the wait budget
the `TimeoutError` message reports). `move` never assigns `_serial`, so the
post state is the input state. -/
def runExchange (st : ArduinoMouseState) (timeout_ms : Int)
    (command : List Nat) (reads : Nat → Option Nat) (max_retries : Nat) :
    MoveResult :=
  let r := moveLoop command reads 0 max_retries
  match r.2 with
  | .ok => ⟨st, r.1, .ok ()⟩
  | .timeout => ⟨st, r.1, .error (.timeoutError timeout_ms)⟩
  | .nak code => ⟨st, r.1, .error (.protocolError code)⟩

/-- `ArduinoMouse.move` from `client.py`: require an open connection,
validate/convert the curve argument, encode the command (propagating the
`ValueError`s), compute the response deadline as
`duration_ms + timeout_buffer_ms` milliseconds, and run the retry loop. -/
def move (st : ArduinoMouseState) (timeout_buffer_ms : Int) (max_retries : Nat)
    (dx dy duration_ms : Int) (curve : CurveArg) (reads : Nat → Option Nat) :
    MoveResult :=
  if st.isConnected = false then
    ⟨st, [], .error .connectionError⟩
  else
    match resolveCurve curve with
    | .error v => ⟨st, [], .error (.valueErrorCurve v)⟩
    | .ok cv =>
      match encode_move_command dx dy duration_ms cv.toInt with
      | .error e => ⟨st, [], .error (.valueErrorEncode e)⟩
      | .ok command =>
        runExchange st (duration_ms + timeout_buffer_ms) command reads
          max_retries

/-! ## Spec-side decoders

These two definitions follow the spec's words, not the source: they are the
reading direction (" bytes 2-3 as signed little-endian 16-bit", "bytes 6-7 as
unsigned little-endian 16-bit") against which the encoder is compared. -/

/-- Modelled from the spec: read a byte pair as a signed little-endian
16-bit integer (two's complement). -/
def decodeInt16LE (lo hi : Nat) : Int :=
  if (lo : Int) + 256 * hi < 32768 then lo + 256 * hi
  else lo + 256 * hi - 65536

/-- Modelled from the spec: read a byte pair as an unsigned little-endian
16-bit integer. -/
def decodeUInt16LE (lo hi : Nat) : Int := lo + 256 * hi

/-- Modelled from the spec: a frame is well-formed iff it is ten bytes and
its trailing byte equals the XOR of the first nine (the actuator-side
checksum verification is firmware, outside this repository). -/
def frameWellFormed (frame : List Nat) : Bool :=
  frame.length == PACKET_SIZE
    && (frame.take 9).foldl Nat.xor 0 == frame.getD 9 0

/-- Modelled from the spec: flip bit `b` of byte `i` of a frame (the
single-bit line corruption the checksum is meant to detect). -/
def flipBit (frame : List Nat) (i b : Nat) : List Nat :=
  frame.set i (frame.getD i 0 ^^^ 2 ^ b)

/-! ## Shared validity predicate -/

/-- The conjunction of the four range checks of `encode_move_command`. -/
def validInputs (dx dy duration_ms curve : Int) : Prop :=
  -32768 ≤ dx ∧ dx ≤ 32767 ∧ -32768 ≤ dy ∧ dy ≤ 32767 ∧
    1 ≤ duration_ms ∧ duration_ms ≤ 65535 ∧ 0 ≤ curve ∧ curve ≤ 3

instance (dx dy duration_ms curve : Int) :
    Decidable (validInputs dx dy duration_ms curve) := by
  unfold validInputs; infer_instance

/-! ## Concrete test fixtures

A connected session and the simulated transports of the spec's retry and
timeout scenarios. -/

/-- A session whose `_serial` handle is present and open. -/
def stOpen : ArduinoMouseState := ⟨some ⟨true⟩⟩

/-- Transport that answers `NAK_CHECKSUM` to the first write and `ACK_OK`
afterwards. -/
def readsNakThenOk : Nat → Option Nat :=
  fun n => if n = 0 then some NAK_CHECKSUM else some ACK_OK

/-- Transport that answers `NAK_CHECKSUM` to every write. -/
def readsAlwaysNakChecksum : Nat → Option Nat := fun _ => some NAK_CHECKSUM

/-- Transport that answers `NAK_INVALID` to every write. -/
def readsNakInvalid : Nat → Option Nat := fun _ => some NAK_INVALID

/-- Transport that never produces a byte (every read times out). -/
def readsSilent : Nat → Option Nat := fun _ => none

/-- The frame of move(200, 0, 500ms, linear): AA 01 C8 00 00 00 F4 01 00
with XOR checksum 96. -/
def frame200 : List Nat :=
  [0xAA, 0x01, 0xC8, 0x00, 0x00, 0x00, 0xF4, 0x01, 0x00, 0x96]

/-! ## Helper lemmas: XOR folding -/

theorem foldl_xor_init (a : Nat) (l : List Nat) :
    l.foldl Nat.xor a = a ^^^ xorFold l := by
  induction l generalizing a with
  | nil => simp [xorFold]
  | cons x xs ih =>
    show xs.foldl Nat.xor (a ^^^ x) = a ^^^ (x :: xs).foldl Nat.xor 0
    rw [ih (a ^^^ x)]
    show a ^^^ x ^^^ xorFold xs = a ^^^ xs.foldl Nat.xor (0 ^^^ x)
    rw [ih (0 ^^^ x), Nat.zero_xor, Nat.xor_assoc]

theorem xorFold_cons (a : Nat) (l : List Nat) :
    xorFold (a :: l) = a ^^^ xorFold l := by
  show l.foldl Nat.xor (0 ^^^ a) = a ^^^ xorFold l
  rw [foldl_xor_init, Nat.zero_xor]

/-- Replacing element `i` of a list by its XOR with a mask shifts the whole
XOR fold by that mask. -/
theorem xorFold_set (l : List Nat) (i : Nat) (hi : i < l.length) (m : Nat) :
    xorFold (l.set i (l.getD i 0 ^^^ m)) = xorFold l ^^^ m := by
  induction l generalizing i with
  | nil => simp at hi
  | cons x xs ih =>
    cases i with
    | zero =>
      simp only [List.set_cons_zero, List.getD_cons_zero, xorFold_cons]
      rw [Nat.xor_assoc, Nat.xor_comm m (xorFold xs), ← Nat.xor_assoc]
    | succ i =>
      simp only [List.set_cons_succ, List.getD_cons_succ, xorFold_cons]
      rw [ih i (by simpa using hi), ← Nat.xor_assoc]

theorem xor_mask_ne (c m : Nat) (hm : m ≠ 0) : c ^^^ m ≠ c := by
  intro h
  apply hm
  have : c ^^^ (c ^^^ m) = c ^^^ c := congrArg (c ^^^ ·) h
  rwa [← Nat.xor_assoc, Nat.xor_self, Nat.zero_xor] at this

/-! ## Helper lemmas: the encoder on valid inputs -/

/-- On in-range arguments all four validations pass and the encoder returns
the packed bytes followed by their XOR fold. -/
theorem encode_eq_of_valid {dx dy duration_ms curve : Int}
    (h : validInputs dx dy duration_ms curve) :
    encode_move_command dx dy duration_ms curve =
      .ok (packetBytes dx dy duration_ms curve
        ++ [xorFold (packetBytes dx dy duration_ms curve)]) := by
  obtain ⟨h1, h2, h3, h4, h5, h6, h7, h8⟩ := h
  unfold encode_move_command
  rw [if_neg (by omega), if_neg (by omega), if_neg (by omega), if_neg (by omega)]

/-- The packed payload written out byte by byte. -/
theorem packetBytes_eq (dx dy duration_ms curve : Int) :
    packetBytes dx dy duration_ms curve =
      [START_BYTE, CMD_MOVE, toWire16 dx % 256, toWire16 dx / 256 % 256,
        toWire16 dy % 256, toWire16 dy / 256 % 256,
        duration_ms.toNat % 256, duration_ms.toNat / 256 % 256,
        curve.toNat] := rfl

/-- Reading back the two little-endian bytes of an in-range signed 16-bit
value recovers it. -/
theorem decodeInt16LE_toWire16 {v : Int} (h1 : -32768 ≤ v) (h2 : v ≤ 32767) :
    decodeInt16LE (toWire16 v % 256) (toWire16 v / 256 % 256) = v := by
  have hmod : (toWire16 v : Int) = v % 65536 := by
    unfold toWire16
    exact Int.toNat_of_nonneg (Int.emod_nonneg v (by norm_num))
  unfold decodeInt16LE
  split <;> omega

/-- Reading back the two little-endian bytes of an in-range unsigned 16-bit
value recovers it. -/
theorem decodeUInt16LE_toNat {d : Int} (h1 : 1 ≤ d) (h2 : d ≤ 65535) :
    decodeUInt16LE (d.toNat % 256) (d.toNat / 256 % 256) = d := by
  unfold decodeUInt16LE
  omega

/-! ## Claims about the packet codec -/

/-- C1: For every valid input (dx, dy in [-32768, 32767], duration_ms in
[1, 65535], curve in {0, 1, 2, 3}), `encode_move_command` returns exactly 10
bytes laid out as: byte 0 = 0xAA, byte 1 = 0x01, bytes 2-3 = dx as signed
little-endian 16-bit, bytes 4-5 = dy likewise, bytes 6-7 = duration_ms as
unsigned little-endian 16-bit, byte 8 = curve, byte 9 = XOR of bytes 0–8; in
particular encode(200, 0, 500, 0) yields AA 01 C8 00 00 00 F4 01 00 followed
by the XOR checksum (0x96) of those nine bytes. -/
theorem claim_C1_encode_layout (dx dy duration_ms curve : Int)
    (h : validInputs dx dy duration_ms curve) :
    (∃ l, encode_move_command dx dy duration_ms curve = .ok l ∧
      l.length = 10 ∧
      l.getD 0 0 = 0xAA ∧
      l.getD 1 0 = 0x01 ∧
      decodeInt16LE (l.getD 2 0) (l.getD 3 0) = dx ∧
      decodeInt16LE (l.getD 4 0) (l.getD 5 0) = dy ∧
      decodeUInt16LE (l.getD 6 0) (l.getD 7 0) = duration_ms ∧
      (l.getD 8 0 : Int) = curve ∧
      l.getD 9 0 = xorFold (l.take 9)) ∧
    encode_move_command 200 0 500 0 =
      .ok [0xAA, 0x01, 0xC8, 0x00, 0x00, 0x00, 0xF4, 0x01, 0x00, 0x96] := by
  obtain ⟨h1, h2, h3, h4, h5, h6, h7, h8⟩ := h
  refine ⟨⟨_, encode_eq_of_valid ⟨h1, h2, h3, h4, h5, h6, h7, h8⟩,
    rfl, rfl, rfl, ?_, ?_, ?_, ?_, rfl⟩, rfl⟩
  · exact decodeInt16LE_toWire16 h1 h2
  · exact decodeInt16LE_toWire16 h3 h4
  · exact decodeUInt16LE_toNat h5 h6
  · exact Int.toNat_of_nonneg h7

/-- Witness for C1: the concrete frame of move(200, 0, 500ms, linear). -/
theorem claim_C1_encode_layout_witness :
    encode_move_command 200 0 500 0 =
      .ok [0xAA, 0x01, 0xC8, 0x00, 0x00, 0x00, 0xF4, 0x01, 0x00, 0x96] :=
  (claim_C1_encode_layout 200 0 500 0 (by decide)).2

/-- C3: `decode_response` on exactly one byte b never fails and returns
(success, b) with success true iff b = 0x00 (every nonzero byte is a
non-success outcome with the raw code preserved); on zero or two-or-more
bytes it raises the wrong-length protocol error, and that is its only
failure condition. -/
theorem claim_C3_decode_response :
    (∀ b : Nat, ∃ s, decode_response [b] = .ok (s, b) ∧
      (s = true ↔ b = ACK_OK)) ∧
    (∀ l : List Nat, l.length ≠ 1 →
      decode_response l = .error (.wrongLength l.length)) ∧
    (∀ (l : List Nat) (e : DecodeError),
      decode_response l = .error e → l.length ≠ 1) := by
  refine ⟨fun b => ⟨b == ACK_OK, rfl, by simp⟩,
    fun l h => ?_, fun l e h hl => ?_⟩
  · unfold decode_response; rw [if_neg h]
  · unfold decode_response at h
    rw [if_pos hl] at h
    exact Except.noConfusion h

/-- Witness for C3: a two-byte response is a wrong-length error. -/
theorem claim_C3_decode_response_witness :
    decode_response [0, 0] = .error (.wrongLength 2) :=
  claim_C3_decode_response.2.1 [0, 0] (by decide)

/-- C4: `encode_move_command` fails with a validation error, each range
carrying its own distinct reason, exactly when dx or dy is outside
[-32768, 32767], duration_ms is outside [1, 65535] (zero rejected), or curve
is outside [0, 3]; the boundary values all encode successfully while the
out-by-one values all fail. -/
theorem claim_C4_validation (dx dy duration_ms curve : Int) :
    ((encode_move_command dx dy duration_ms curve).isOk = true ↔
      validInputs dx dy duration_ms curve) ∧
    (¬(-32768 ≤ dx ∧ dx ≤ 32767) →
      encode_move_command dx dy duration_ms curve = .error (.dxRange dx)) ∧
    ((-32768 ≤ dx ∧ dx ≤ 32767) → ¬(-32768 ≤ dy ∧ dy ≤ 32767) →
      encode_move_command dx dy duration_ms curve = .error (.dyRange dy)) ∧
    ((-32768 ≤ dx ∧ dx ≤ 32767) → (-32768 ≤ dy ∧ dy ≤ 32767) →
      ¬(1 ≤ duration_ms ∧ duration_ms ≤ 65535) →
      encode_move_command dx dy duration_ms curve =
        .error (.durationRange duration_ms)) ∧
    ((-32768 ≤ dx ∧ dx ≤ 32767) → (-32768 ≤ dy ∧ dy ≤ 32767) →
      (1 ≤ duration_ms ∧ duration_ms ≤ 65535) → ¬(0 ≤ curve ∧ curve ≤ 3) →
      encode_move_command dx dy duration_ms curve =
        .error (.curveRange curve)) ∧
    ((encode_move_command (-32768) 0 1 0).isOk = true ∧
      (encode_move_command 32767 0 1 0).isOk = true ∧
      (encode_move_command 0 (-32768) 1 0).isOk = true ∧
      (encode_move_command 0 32767 1 0).isOk = true ∧
      (encode_move_command 0 0 1 0).isOk = true ∧
      (encode_move_command 0 0 65535 0).isOk = true ∧
      (encode_move_command 0 0 1 3).isOk = true) ∧
    (encode_move_command 32768 0 1 0 = .error (.dxRange 32768) ∧
      encode_move_command 0 0 0 0 = .error (.durationRange 0) ∧
      encode_move_command 0 0 65536 0 = .error (.durationRange 65536) ∧
      encode_move_command 0 0 1 4 = .error (.curveRange 4)) := by
  refine ⟨?_, ?_, ?_, ?_, ?_,
    ⟨rfl, rfl, rfl, rfl, rfl, rfl, rfl⟩, ⟨rfl, rfl, rfl, rfl⟩⟩
  · unfold encode_move_command validInputs
    split_ifs with ha hb hc hd <;> simp [Except.isOk, Except.toBool] <;> omega
  · intro hdx
    unfold encode_move_command
    rw [if_pos hdx]
  · intro hdx hdy
    unfold encode_move_command
    rw [if_neg (not_not_intro hdx), if_pos hdy]
  · intro hdx hdy hdur
    unfold encode_move_command
    rw [if_neg (not_not_intro hdx), if_neg (not_not_intro hdy), if_pos hdur]
  · intro hdx hdy hdur hcv
    unfold encode_move_command
    rw [if_neg (not_not_intro hdx), if_neg (not_not_intro hdy),
      if_neg (not_not_intro hdur), if_pos hcv]

/-- Witness for C4: an out-of-range dx fails with the dx reason. -/
theorem claim_C4_validation_witness :
    encode_move_command 40000 0 1 0 = .error (.dxRange 40000) :=
  (claim_C4_validation 40000 0 1 0).2.1 (by decide)

/-- C6: Round-trip: for every valid (dx, dy, duration_ms, curve), decoding
the header fields of the encoded frame — bytes 2-3 as signed little-endian
16-bit, bytes 4-5 as signed little-endian 16-bit, bytes 6-7 as unsigned
little-endian 16-bit, and byte 8 — recovers exactly dx, dy, duration_ms and
curve, and the final byte of the frame equals the XOR of its first nine
bytes. -/
theorem claim_C6_round_trip (dx dy duration_ms curve : Int)
    (h : validInputs dx dy duration_ms curve) (l : List Nat)
    (hl : encode_move_command dx dy duration_ms curve = .ok l) :
    decodeInt16LE (l.getD 2 0) (l.getD 3 0) = dx ∧
    decodeInt16LE (l.getD 4 0) (l.getD 5 0) = dy ∧
    decodeUInt16LE (l.getD 6 0) (l.getD 7 0) = duration_ms ∧
    (l.getD 8 0 : Int) = curve ∧
    l.getD 9 0 = xorFold (l.take 9) := by
  obtain ⟨h1, h2, h3, h4, h5, h6, h7, h8⟩ := h
  rw [encode_eq_of_valid ⟨h1, h2, h3, h4, h5, h6, h7, h8⟩] at hl
  injection hl with hl
  subst hl
  exact ⟨decodeInt16LE_toWire16 h1 h2, decodeInt16LE_toWire16 h3 h4,
    decodeUInt16LE_toNat h5 h6, Int.toNat_of_nonneg h7, rfl⟩

/-- Witness for C6: reading back the dx bytes of the concrete frame. -/
theorem claim_C6_round_trip_witness : decodeInt16LE 0xC8 0x00 = 200 :=
  (claim_C6_round_trip 200 0 500 0 (by decide)
    [0xAA, 0x01, 0xC8, 0x00, 0x00, 0x00, 0xF4, 0x01, 0x00, 0x96] rfl).1

/-! ## Checksum sensitivity -/

/-- Well-formedness of a nine-byte payload with one trailing byte is the
checksum comparison. -/
theorem frameWellFormed_append (p : List Nat) (c : Nat) (hp : p.length = 9) :
    frameWellFormed (p ++ [c]) = (xorFold p == c) := by
  unfold frameWellFormed
  have h2 : (p ++ [c]).take 9 = p := by
    conv_lhs => rw [← hp]
    exact List.take_left _ _
  have h3 : (p ++ [c]).getD 9 0 = c := by
    rw [List.getD_append_right _ _ _ _ (le_of_eq hp), hp]
    rfl
  simp [h2, h3, hp, PACKET_SIZE, xorFold]

/-- Flipping any bit of any of the first nine bytes of a checksummed frame
breaks well-formedness: the fold over the modified payload differs from the
unchanged trailing byte by a nonzero mask. -/
theorem frameWellFormed_flipBit_false (packet : List Nat)
    (hp : packet.length = 9) (i b : Nat) (hi : i < 9) :
    frameWellFormed (flipBit (packet ++ [xorFold packet]) i b) = false := by
  have hi' : i < packet.length := by omega
  unfold flipBit
  rw [List.getD_append _ _ _ i hi', List.set_append_left i _ hi',
    frameWellFormed_append _ _ (by rw [List.length_set]; exact hp),
    xorFold_set packet i hi' (2 ^ b)]
  simp only [beq_eq_false_iff_ne, ne_eq]
  exact xor_mask_ne _ _ (Nat.two_pow_pos b).ne'

/-- C7: every frame produced by `encode_move_command` is well-formed (its
trailing byte is the XOR of its first nine bytes), and for every single-bit
flip applied to any one of its first nine bytes the modified frame is no
longer well-formed, so the well-formedness check detects every single-bit
corruption of the payload. -/
theorem claim_C7_checksum_sensitivity (dx dy duration_ms curve : Int)
    (h : validInputs dx dy duration_ms curve) (l : List Nat)
    (hl : encode_move_command dx dy duration_ms curve = .ok l)
    (i b : Nat) (hi : i < 9) (_hb : b < 8) :
    frameWellFormed l = true ∧ frameWellFormed (flipBit l i b) = false := by
  rw [encode_eq_of_valid h] at hl
  injection hl with hl
  subst hl
  constructor
  · rw [frameWellFormed_append _ _ (by rfl)]
    exact beq_self_eq_true _
  · exact frameWellFormed_flipBit_false _ (by rfl) i b hi

/-- Witness for C7: flipping bit 0 of byte 2 of the concrete frame breaks
the checksum. -/
theorem claim_C7_checksum_sensitivity_witness :
    frameWellFormed [0xAA, 0x01, 0xC8, 0x00, 0x00, 0x00, 0xF4, 0x01, 0x00, 0x96]
        = true ∧
      frameWellFormed
        (flipBit [0xAA, 0x01, 0xC8, 0x00, 0x00, 0x00, 0xF4, 0x01, 0x00, 0x96]
          2 0) = false :=
  claim_C7_checksum_sensitivity 200 0 500 0 (by decide)
    [0xAA, 0x01, 0xC8, 0x00, 0x00, 0x00, 0xF4, 0x01, 0x00, 0x96] rfl
    2 0 (by decide) (by decide)

/-! ## Helper lemmas: the retry loop and `move` -/

/-- The loop performs at most `remaining + 1` writes. -/
theorem moveLoop_writes_le (command : List Nat) (reads : Nat → Option Nat)
    (attempt remaining : Nat) :
    (moveLoop command reads attempt remaining).1.length ≤ remaining + 1 := by
  induction remaining generalizing attempt with
  | zero =>
    unfold moveLoop
    cases reads attempt with
    | none => simp
    | some code =>
      dsimp only
      split_ifs <;> simp
  | succ r ih =>
    unfold moveLoop
    cases reads attempt with
    | none => simp
    | some code =>
      dsimp only
      by_cases hok : code = ACK_OK
      · rw [if_pos hok]
        simp
      · rw [if_neg hok]
        by_cases hnak : code = NAK_CHECKSUM
        · rw [if_pos hnak]
          dsimp only
          simp only [List.length_cons]
          exact Nat.succ_le_succ (ih (attempt + 1))
        · rw [if_neg hnak]
          simp

/-- Any response other than `ACK_OK` — and `NAK_CHECKSUM` when no attempts
remain — ends the loop at once with a protocol failure after that single
write. -/
theorem moveLoop_terminal (command : List Nat) (reads : Nat → Option Nat)
    (attempt remaining code : Nat) (hc : reads attempt = some code)
    (hok : code ≠ ACK_OK) (hnak : code = NAK_CHECKSUM → remaining = 0) :
    moveLoop command reads attempt remaining = ([command], .nak code) := by
  unfold moveLoop
  rw [hc]
  dsimp only
  rw [if_neg hok]
  by_cases h : code = NAK_CHECKSUM
  · rw [hnak h, if_pos h]
  · rw [if_neg h]

/-- A read that returns no byte ends the loop at once with a timeout after
that single write, however many attempts remain. -/
theorem moveLoop_silent (command : List Nat) (reads : Nat → Option Nat)
    (attempt remaining : Nat) (hc : reads attempt = none) :
    moveLoop command reads attempt remaining = ([command], .timeout) := by
  unfold moveLoop
  rw [hc]

/-- On a connected session with an enum-member curve, `move` reduces to the
exchange on the encoded frame with budget `duration_ms + buffer`. -/
theorem move_connected_eq (st : ArduinoMouseState) (h : st.isConnected = true)
    (buffer : Int) (m : Nat) (dx dy dur : Int) (cv : Curve)
    (reads : Nat → Option Nat) (command : List Nat)
    (hcmd : encode_move_command dx dy dur cv.toInt = .ok command) :
    move st buffer m dx dy dur (.member cv) reads =
      runExchange st (dur + buffer) command reads m := by
  unfold move
  rw [h, if_neg (by simp)]
  show (match encode_move_command dx dy dur cv.toInt with
    | .error e => (⟨st, [], .error (.valueErrorEncode e)⟩ : MoveResult)
    | .ok command => runExchange st (dur + buffer) command reads m) = _
  rw [hcmd]

/-- A session that is not connected fails with a connectivity error before
anything is written. -/
theorem move_not_connected (st : ArduinoMouseState)
    (h : st.isConnected = false) (buffer : Int) (m : Nat) (dx dy dur : Int)
    (curve : CurveArg) (reads : Nat → Option Nat) :
    move st buffer m dx dy dur curve reads =
      ⟨st, [], .error .connectionError⟩ := by
  unfold move
  rw [if_pos h]

/-- `move` never changes the session state. -/
theorem move_post (st : ArduinoMouseState) (buffer : Int) (m : Nat)
    (dx dy dur : Int) (curve : CurveArg) (reads : Nat → Option Nat) :
    (move st buffer m dx dy dur curve reads).post = st := by
  unfold move
  split_ifs
  · rfl
  · cases resolveCurve curve with
    | error v => rfl
    | ok cv =>
      dsimp only
      cases encode_move_command dx dy dur cv.toInt with
      | error e => rfl
      | ok command =>
        dsimp only
        unfold runExchange
        dsimp only
        cases (moveLoop command reads 0 m).2 <;> rfl

/-- A connected session, valid arguments and an immediate `ACK_OK` give an
overall success. -/
theorem move_success (st : ArduinoMouseState) (h : st.isConnected = true)
    (buffer : Int) (m : Nat) (dx dy dur : Int) (cv : Curve)
    (reads : Nat → Option Nat) (hv : validInputs dx dy dur cv.toInt)
    (hr : reads 0 = some ACK_OK) :
    (move st buffer m dx dy dur (.member cv) reads).outcome = .ok () := by
  rw [move_connected_eq st h buffer m dx dy dur cv reads _
    (encode_eq_of_valid hv)]
  unfold runExchange moveLoop
  rw [hr]
  rfl

/-! ## Claims about the command session -/

/-- C2: In every execution of `move`, the request/response exchange is
attempted at most `max_retries + 1` times; the loop repeats only when the
response is `NAK_CHECKSUM` with attempts remaining, and any other non-Ok
outcome — or `NAK_CHECKSUM` on the final attempt — terminates immediately
with a protocol error after that single attempt.  Concretely (with the
default `MAX_RETRIES = 1`): a transport answering `NAK_CHECKSUM` then
`ACK_OK` gives exactly 2 writes and success; `NAK_CHECKSUM` twice gives
exactly 2 writes and a terminal protocol error; `NAK_INVALID` once gives
exactly 1 write and an immediate terminal error. -/
theorem claim_C2_retry_policy :
    (∀ (st : ArduinoMouseState) (buffer : Int) (max_retries : Nat)
      (dx dy duration_ms : Int) (curve : CurveArg) (reads : Nat → Option Nat),
      (move st buffer max_retries dx dy duration_ms curve reads).writes.length
        ≤ max_retries + 1) ∧
    (∀ (command : List Nat) (reads : Nat → Option Nat)
      (attempt remaining code : Nat), reads attempt = some code →
      code ≠ ACK_OK → (code = NAK_CHECKSUM → remaining = 0) →
      moveLoop command reads attempt remaining = ([command], .nak code)) ∧
    move stOpen 1000 MAX_RETRIES 200 0 500 (.member .LINEAR) readsNakThenOk
      = ⟨stOpen, [frame200, frame200], .ok ()⟩ ∧
    move stOpen 1000 MAX_RETRIES 200 0 500 (.member .LINEAR)
        readsAlwaysNakChecksum
      = ⟨stOpen, [frame200, frame200], .error (.protocolError NAK_CHECKSUM)⟩ ∧
    move stOpen 1000 MAX_RETRIES 200 0 500 (.member .LINEAR) readsNakInvalid
      = ⟨stOpen, [frame200], .error (.protocolError NAK_INVALID)⟩ := by
  refine ⟨?_, moveLoop_terminal, rfl, rfl, rfl⟩
  intro st buffer max_retries dx dy duration_ms curve reads
  unfold move
  split_ifs
  · simp
  · cases resolveCurve curve with
    | error v => simp
    | ok cv =>
      dsimp only
      cases encode_move_command dx dy duration_ms cv.toInt with
      | error e => simp
      | ok command =>
        dsimp only
        unfold runExchange
        dsimp only
        have hle := moveLoop_writes_le command reads 0 max_retries
        cases (moveLoop command reads 0 max_retries).2 <;> exact hle

/-- Witness for C2: a `NAK_INVALID` response terminates the loop at once. -/
theorem claim_C2_retry_policy_witness :
    moveLoop frame200 readsNakInvalid 0 1 = ([frame200], .nak NAK_INVALID) :=
  claim_C2_retry_policy.2.1 frame200 readsNakInvalid 0 1 NAK_INVALID rfl
    (by decide) (by decide)

/-- C5: the wait budget for the single response byte is computed as exactly
`duration_ms + timeout_buffer_ms` milliseconds, and a read that returns no
byte within that budget raises a timeout error that is terminal: no resend
happens after silence, regardless of remaining retry attempts — whether the
silence is on the first attempt or after a checksum retry. -/
theorem claim_C5_timeout_budget (st : ArduinoMouseState)
    (h : st.isConnected = true) (buffer : Int) (m : Nat) (dx dy dur : Int)
    (cv : Curve) (reads : Nat → Option Nat)
    (hv : validInputs dx dy dur cv.toInt) :
    (reads 0 = none →
      move st buffer m dx dy dur (.member cv) reads =
        ⟨st, [packetBytes dx dy dur cv.toInt
              ++ [xorFold (packetBytes dx dy dur cv.toInt)]],
          .error (.timeoutError (dur + buffer))⟩) ∧
    (∀ m' : Nat, m = m' + 1 → reads 0 = some NAK_CHECKSUM → reads 1 = none →
      move st buffer m dx dy dur (.member cv) reads =
        ⟨st, [packetBytes dx dy dur cv.toInt
                ++ [xorFold (packetBytes dx dy dur cv.toInt)],
              packetBytes dx dy dur cv.toInt
                ++ [xorFold (packetBytes dx dy dur cv.toInt)]],
          .error (.timeoutError (dur + buffer))⟩) := by
  constructor
  · intro hr
    rw [move_connected_eq st h buffer m dx dy dur cv reads _
      (encode_eq_of_valid hv)]
    unfold runExchange
    rw [moveLoop_silent _ _ _ _ hr]
  · intro m' hm hr0 hr1
    subst hm
    rw [move_connected_eq st h buffer (m' + 1) dx dy dur cv reads _
      (encode_eq_of_valid hv)]
    unfold runExchange
    unfold moveLoop
    rw [hr0]
    dsimp only
    rw [if_neg (by decide), if_pos rfl]
    dsimp only
    rw [moveLoop_silent _ _ _ _ hr1]

/-- Witness for C5: a silent transport times out after one write with
budget 500 + 1000 ms. -/
theorem claim_C5_timeout_budget_witness :
    move stOpen 1000 MAX_RETRIES 200 0 500 (.member .LINEAR) readsSilent =
      ⟨stOpen, [frame200], .error (.timeoutError 1500)⟩ :=
  (claim_C5_timeout_budget stOpen rfl 1000 MAX_RETRIES 200 0 500 .LINEAR
    readsSilent (by decide)).1 rfl

/-- C8: Atomicity of errors in `move`: when `move` raises a validation error
(invalid curve value, or out-of-range dx, dy or duration), nothing has been
written to the transport and the session state is unchanged; and after any
terminal error other than a connectivity failure the session state is
unchanged and still connected, so a subsequent `move` call on the same
session can proceed to success. -/
theorem claim_C8_error_atomicity :
    (∀ (st : ArduinoMouseState) (buffer : Int) (m : Nat) (dx dy dur : Int)
      (curve : CurveArg) (reads : Nat → Option Nat),
      (move st buffer m dx dy dur curve reads).post = st) ∧
    (∀ (st : ArduinoMouseState) (buffer : Int) (m : Nat) (dx dy dur : Int)
      (cv : Curve) (reads : Nat → Option Nat) (e : EncodeError),
      st.isConnected = true →
      encode_move_command dx dy dur cv.toInt = .error e →
      move st buffer m dx dy dur (.member cv) reads =
        ⟨st, [], .error (.valueErrorEncode e)⟩) ∧
    (∀ (st : ArduinoMouseState) (buffer : Int) (m : Nat) (dx dy dur v : Int)
      (reads : Nat → Option Nat),
      st.isConnected = true → Curve.ofInt? v = none →
      move st buffer m dx dy dur (.raw v) reads =
        ⟨st, [], .error (.valueErrorCurve v)⟩) ∧
    (∀ (st : ArduinoMouseState) (buffer : Int) (m : Nat) (dx dy dur : Int)
      (curve : CurveArg) (reads : Nat → Option Nat) (err : MoveError),
      (move st buffer m dx dy dur curve reads).outcome = .error err →
      err ≠ .connectionError →
      (move st buffer m dx dy dur curve reads).post.isConnected = true ∧
      ∀ (buffer2 : Int) (m2 : Nat) (dx2 dy2 dur2 : Int) (cv2 : Curve)
        (reads2 : Nat → Option Nat),
        validInputs dx2 dy2 dur2 cv2.toInt → reads2 0 = some ACK_OK →
        (move (move st buffer m dx dy dur curve reads).post buffer2 m2
          dx2 dy2 dur2 (.member cv2) reads2).outcome = .ok ()) := by
  refine ⟨move_post, ?_, ?_, ?_⟩
  · intro st buffer m dx dy dur cv reads e hconn hcmd
    unfold move
    rw [hconn, if_neg (by simp)]
    dsimp only [resolveCurve]
    rw [hcmd]
  · intro st buffer m dx dy dur v reads hconn hv
    unfold move
    rw [hconn, if_neg (by simp)]
    dsimp only [resolveCurve]
    rw [hv]
  · intro st buffer m dx dy dur curve reads err hout hne
    have hpost := move_post st buffer m dx dy dur curve reads
    have hconn : st.isConnected = true := by
      cases hB : st.isConnected with
      | true => rfl
      | false =>
        rw [move_not_connected st hB buffer m dx dy dur curve reads] at hout
        injection hout with hout
        exact absurd hout.symm hne
    refine ⟨by rw [hpost]; exact hconn, ?_⟩
    intro buffer2 m2 dx2 dy2 dur2 cv2 reads2 hv2 hr2
    rw [hpost]
    exact move_success st hconn buffer2 m2 dx2 dy2 dur2 cv2 reads2 hv2 hr2

/-- Witness for C8: after a terminal protocol error on a connected session,
a subsequent valid `move` on the same session succeeds. -/
theorem claim_C8_error_atomicity_witness :
    (move stOpen 1000 MAX_RETRIES 200 0 500 (.member .LINEAR)
      (fun _ => some ACK_OK)).outcome = .ok () :=
  (claim_C8_error_atomicity.2.2.2 stOpen 1000 MAX_RETRIES 200 0 500
    (.member .LINEAR) readsNakInvalid (.protocolError NAK_INVALID) rfl
    (by decide)).2 1000 MAX_RETRIES 200 0 500 .LINEAR (fun _ => some ACK_OK)
    (by decide) rfl

/-- C9: `close` is idempotent: calling `close` on an already-closed session
(including via context-manager exit or destructor teardown after an explicit
close) is a no-op that raises no error and leaves the session in the same
closed state; after the first `close` of an open session the underlying
transport handle is released. -/
theorem claim_C9_close_idempotent :
    (∀ s : ArduinoMouseState, s.close.close = s.close) ∧
    (∀ s : ArduinoMouseState,
      s.close.ctxExit = s.close ∧ s.close.destructor = s.close) ∧
    (∀ (s : ArduinoMouseState) (h : SerialHandle),
      s.serial = some h → h.is_open = true → s.close.serial = none) := by
  have key : ∀ s : ArduinoMouseState, s.close.close = s.close := by
    intro s
    obtain ⟨serial⟩ := s
    cases serial with
    | none => rfl
    | some h =>
      obtain ⟨b⟩ := h
      cases b <;> rfl
  refine ⟨key, fun s => ⟨key s, key s⟩, ?_⟩
  intro s h hs hopen
  unfold ArduinoMouseState.close
  rw [hs]
  dsimp only
  rw [if_pos hopen]

/-- Witness for C9: closing an open session releases the handle. -/
theorem claim_C9_close_idempotent_witness : stOpen.close.serial = none :=
  claim_C9_close_idempotent.2.2 stOpen ⟨true⟩ rfl rfl

/-- C10: at the public `move` boundary the curve argument is accepted either
as a `Curve` enum member or as a plain integer: every integer accepted by
the `Curve` lookup (exactly the codes 0–3) makes `move` behave identically
to the corresponding member (same frames written, same outcome), and every
other integer raises a `ValueError` before encoding or touching the
transport. -/
theorem claim_C10_curve_coercion :
    (∀ (st : ArduinoMouseState) (buffer : Int) (m : Nat) (dx dy dur : Int)
      (reads : Nat → Option Nat) (v : Int) (cv : Curve),
      Curve.ofInt? v = some cv →
      move st buffer m dx dy dur (.raw v) reads =
        move st buffer m dx dy dur (.member cv) reads) ∧
    (∀ cv : Curve, Curve.ofInt? cv.toInt = some cv) ∧
    (Curve.ofInt? 0 = some .LINEAR ∧ Curve.ofInt? 1 = some .EASE_IN ∧
      Curve.ofInt? 2 = some .EASE_OUT ∧ Curve.ofInt? 3 = some .EASE_IN_OUT) ∧
    (∀ (st : ArduinoMouseState) (buffer : Int) (m : Nat) (dx dy dur : Int)
      (reads : Nat → Option Nat) (v : Int),
      st.isConnected = true → Curve.ofInt? v = none →
      move st buffer m dx dy dur (.raw v) reads =
        ⟨st, [], .error (.valueErrorCurve v)⟩) := by
  refine ⟨?_, fun cv => by cases cv <;> rfl, ⟨rfl, rfl, rfl, rfl⟩, ?_⟩
  · intro st buffer m dx dy dur reads v cv hv
    unfold move
    split_ifs
    · rfl
    · dsimp only [resolveCurve]
      rw [hv]
  · intro st buffer m dx dy dur reads v hconn hv
    unfold move
    rw [hconn, if_neg (by simp)]
    dsimp only [resolveCurve]
    rw [hv]

/-- Witness for C10: passing the raw integer 2 behaves exactly like passing
the EASE_OUT member. -/
theorem claim_C10_curve_coercion_witness :
    move stOpen 1000 MAX_RETRIES 10 20 30 (.raw 2) readsSilent =
      move stOpen 1000 MAX_RETRIES 10 20 30 (.member .EASE_OUT) readsSilent :=
  claim_C10_curve_coercion.1 stOpen 1000 MAX_RETRIES 10 20 30 readsSilent
    2 .EASE_OUT rfl

end ArduinoMouseProxy
